import Mathlib

/-!
Verification development for the jangbingo job-posting backend.

The definitions below are a shallow embedding of the TypeScript sources:
  * `src/services/jobPostService.ts` (class `JobPostService`)
  * `src/validators/jobPostValidator.ts` (the strict zod revision of
    `createJobPostSchema`, the one built from `.refine` clauses)
  * the community service (class `CommunityService`)
JavaScript truthiness (`if (x)`, `x || y`) is modelled explicitly by the
`strOptTruthy` / `natOptTruthy` / `intOptTruthy` helpers and the
`strOrNull` / `intOrNull` / `natOrNull` normalisers, because the service
code relies on it when assembling database rows.  Database state is a
record of lists of rows; every Prisma `findFirst` / `findUnique` becomes
`List.find?` and every `create` / `update` becomes an explicit list edit.
-/

deriving instance DecidableEq for Except

/-- Prisma enum `JobPostType`. -/
inductive JobPostType
  | GLOBAL
  | COMMUNITY
  | DESIGNATED
deriving DecidableEq, Repr

/-- Prisma enum `JobPostCategory`. -/
inductive JobPostCategory
  | SKY
  | LADDER
deriving DecidableEq, Repr

/-- Prisma enum `LadderType`. -/
inductive LadderType
  | MOVING_GOODS
  | ON_SITE
deriving DecidableEq, Repr

/-- Prisma enum `PaymentMethod`. -/
inductive PaymentMethod
  | SIGNATURE
  | DIRECT_PAYMENT
  | CASH
deriving DecidableEq, Repr

/-- Prisma enum `WorkDateType`. -/
inductive WorkDateType
  | URGENT
  | TODAY
  | TOMORROW
  | CUSTOM_DATE
deriving DecidableEq, Repr

/-- Prisma enum `LoadingUnloadingService`. -/
inductive LoadingUnloadingService
  | NONE
  | LOADING
  | UNLOADING
  | BOTH
deriving DecidableEq, Repr

/-- Prisma enum `TravelDistance`. -/
inductive TravelDistance
  | WITHIN_JURISDICTION
  | OUTSIDE_JURISDICTION
deriving DecidableEq, Repr

/-- Prisma enum `CommunityRole`. -/
inductive CommunityRole
  | OWNER
  | ADMIN
  | MODERATOR
  | MEMBER
deriving DecidableEq, Repr

/-- Prisma enum `CommunityStatus`. -/
inductive CommunityStatus
  | ACTIVE
  | INACTIVE
deriving DecidableEq, Repr

/-- JS truthiness of an optional string: `undefined` and `""` are falsy. -/
def strOptTruthy : Option String → Bool
  | none => false
  | some s => !(s = "")

/-- JS truthiness of an optional number used as an id or count: `undefined` and `0` are falsy. -/
def natOptTruthy : Option Nat → Bool
  | none => false
  | some n => !(n = 0)

/-- JS truthiness of an optional (possibly signed) number: `undefined` and `0` are falsy. -/
def intOptTruthy : Option Int → Bool
  | none => false
  | some n => !(n = 0)

/-- JS truthiness of an optional boolean. -/
def boolOptTruthy : Option Bool → Bool
  | none => false
  | some b => b

/-- `x || null` on an optional string: an empty string collapses to `null`. -/
def strOrNull : Option String → Option String
  | none => none
  | some s => if s = "" then none else some s

/-- `x || null` on an optional number: `0` collapses to `null`. -/
def intOrNull : Option Int → Option Int
  | none => none
  | some n => if n = 0 then none else some n

/-- `x || null` on an optional id: `0` collapses to `null`. -/
def natOrNull : Option Nat → Option Nat
  | none => none
  | some n => if n = 0 then none else some n

/-- `x || false` on an optional boolean. -/
def boolOrFalse : Option Bool → Bool
  | none => false
  | some b => b

/-- `JobPostService.equipmentLengths`: the fixed equipment-type → valid-lengths table. -/
def equipmentLengths (t : String) : Option (List Int) :=
  if t = "1 ton" then some [16, 18, 20, 21]
  else if t = "2.5 ton" then some [22, 24, 25]
  else if t = "3.5 ton" then some [28, 30, 32, 35]
  else if t = "5 ton" then some [38, 40, 45, 50, 54]
  else if t = "18 ton" then some [58, 60, 65, 70]
  else if t = "19 ton" then some [75]
  else if t = "3.5 tons of bending" then some [28]
  else if t = "Refraction 5 tons" then some [40]
  else if t = "Refraction 60M" then some [60]
  else if t = "Refraction 70M" then some [70]
  else none

/-- The service-layer create request (`CreateJobPostRequest` in `src/types/jobPost.ts`,
the revision with a singular `equipmentLength`).  Optional TS fields become `Option`. -/
structure CreateJobPostRequest where
  type : JobPostType
  category : JobPostCategory
  communityId : Option Nat := none
  designatedUserId : Option Nat := none
  equipmentType : Option String := none
  equipmentLength : Option Int := none
  ladderType : Option LadderType := none
  luggageVolume : Option String := none
  workFloor : Option Int := none
  overallHeight : Option Int := none
  ladderWorkDuration : Option String := none
  ladderWorkHours : Option Int := none
  loadingUnloadingService : Option LoadingUnloadingService := none
  travelDistance : Option TravelDistance := none
  dumpService : Option Bool := none
  movingFee : Option Int := none
  onSiteFee : Option Int := none
  workDateType : Option WorkDateType := none
  workDate : Option Nat := none
  arrivalTime : Option String := none
  workSchedule : Option String := none
  customHours : Option Int := none
  basePrice : Option Int := none
  finalPrice : Option Int := none
  isNightWork : Option Bool := none
  priceAdjustment : Option Int := none
  paymentMethod : Option PaymentMethod := none
  expectedPaymentDate : Option String := none
  withFee : Option Bool := none
  totalWorkFee : Option Int := none
  unitPriceFee : Option Int := none
  communityWorkFee : Option Int := none
  communitySupportFee : Option Int := none
  siteAddress : Option String := none
  contactNumber : Option String := none
  workContents : Option String := none
  deliveryInfo : Option String := none
deriving DecidableEq, Repr

/-- Hour part of the regex `([0-1]?[0-9]|2[0-3])` in `isValidTimeFormat`. -/
def isValidHourChars : List Char → Bool
  | [c] => c.isDigit
  | [c1, c2] =>
      ((c1 = '0' || c1 = '1') && c2.isDigit) ||
      (c1 = '2' && (c2 = '0' || c2 = '1' || c2 = '2' || c2 = '3'))
  | _ => false

/-- Minute part of the regex `[0-5][0-9]` in `isValidTimeFormat`. -/
def isValidMinuteChars : List Char → Bool
  | [c1, c2] =>
      (c1 = '0' || c1 = '1' || c1 = '2' || c1 = '3' || c1 = '4' || c1 = '5') && c2.isDigit
  | _ => false

/-- Split a character list at the first colon, mirroring the single `:` of the
anchored time regex (a second colon then lands in the minute part and fails it). -/
def splitAtColon : List Char → Option (List Char × List Char)
  | [] => none
  | c :: rest =>
      if c = ':' then some ([], rest)
      else
        match splitAtColon rest with
        | some (h, m) => some (c :: h, m)
        | none => none

/-- `JobPostService.isValidTimeFormat`: the regex test of the arrival time. -/
def isValidTimeFormat (time : String) : Bool :=
  match splitAtColon time.toList with
  | some (h, m) => isValidHourChars h && isValidMinuteChars m
  | none => false

/-- The `validSchedules` list of `JobPostService.isValidWorkSchedule`. -/
def validSchedules : List String :=
  ["half day morning", "half day evening", "1 day", "2 days", "3 days",
   "monthly rent", "1 hour", "2 hours", "3 hours", "4 hours", "5 hours",
   "6 hours", "7 hours", "8 hours", "9 hours", "10 hours", "11 hours", "12 hours"]

/-- `JobPostService.isValidWorkSchedule`: membership of the lowercased schedule. -/
def isValidWorkSchedule (schedule : String) : Bool :=
  validSchedules.contains schedule.toLower

/-- Whether `pat` occurs at the head of the second list. -/
def leadMatches : List Char → List Char → Bool
  | [], _ => true
  | _ :: _, [] => false
  | p :: ps, c :: cs => p = c && leadMatches ps cs

/-- JS `String.prototype.includes`, over character lists. -/
def hasSubstr (pat : List Char) : List Char → Bool
  | [] => pat.isEmpty
  | c :: cs => leadMatches pat (c :: cs) || hasSubstr pat cs

/-- `workSchedule.includes('hour')` from the service. -/
def includesHour (s : String) : Bool :=
  hasSubstr ['h', 'o', 'u', 'r'] s.toList

/-- First check of `validateSkyJobPostData`: when `equipmentType` and
`equipmentLength` are both truthy, the length must occur in the
`equipmentLengths` table entry for that type; an unknown type also fails. -/
def skyEquipCheck (d : CreateJobPostRequest) : Except String Unit :=
  if strOptTruthy d.equipmentType && intOptTruthy d.equipmentLength then
    match equipmentLengths (d.equipmentType.getD "") with
    | none => Except.error "Invalid equipment length for equipment type"
    | some validLengths =>
        if (d.equipmentLength.getD 0) ∈ validLengths then Except.ok ()
        else Except.error "Invalid equipment length for equipment type"
  else Except.ok ()

/-- `validateSkyJobPostData`: the sequential throw-checks of the service for
SKY posts (equipment length, custom work date, arrival-time format, work
schedule, custom hours), each skipped when its guard value is falsy. -/
def validateSkyJobPostData (d : CreateJobPostRequest) : Except String Unit := do
  skyEquipCheck d
  if d.workDateType = some WorkDateType.CUSTOM_DATE && !d.workDate.isSome then
    Except.error "Work date is required when work date type is CUSTOM_DATE"
  else Except.ok ()
  if strOptTruthy d.arrivalTime && !isValidTimeFormat (d.arrivalTime.getD "") then
    Except.error "Invalid arrival time format"
  else Except.ok ()
  if strOptTruthy d.workSchedule && !isValidWorkSchedule (d.workSchedule.getD "") then
    Except.error "Invalid work schedule format"
  else Except.ok ()
  if strOptTruthy d.workSchedule && includesHour (d.workSchedule.getD "") &&
      !intOptTruthy d.customHours then
    Except.error "Custom hours required when work schedule includes hours"
  else Except.ok ()

/-- A SKY create request with equipment type `1 ton` and length `19`. -/
def skyReq19 : CreateJobPostRequest :=
  { type := JobPostType.GLOBAL, category := JobPostCategory.SKY,
    equipmentType := some "1 ton", equipmentLength := some 19,
    workDateType := some WorkDateType.URGENT, workContents := some "crane work" }

/-- The same SKY create request with length `18` instead. -/
def skyReq18 : CreateJobPostRequest :=
  { skyReq19 with equipmentLength := some 18 }

example : validateSkyJobPostData skyReq19 =
    Except.error "Invalid equipment length for equipment type" := by decide

example : validateSkyJobPostData skyReq18 = Except.ok () := by decide

example : isValidTimeFormat "14:30" = true := by decide
example : isValidTimeFormat "24:30" = false := by decide
example : isValidTimeFormat "6:30" = true := by decide
example : includesHour "3 hours" = true := by decide
example : includesHour "1 day" = false := by decide

/-- The nested `options` object of the strict `createJobPostSchema`. -/
structure LadderOptionsPayload where
  loadingUnloadingService : Option String := none
  travelDistance : Option String := none
  dumpService : Option Bool := none
deriving DecidableEq, Repr

/-- The raw request body checked by the strict (refine-based) revision of
`createJobPostSchema` in `src/validators/jobPostValidator.ts`.  A zod-required
key is still `Option` here, because the schema itself checks its presence on
the raw JSON body; enum-typed keys carry their enum when present. -/
structure CreateJobPostPayload where
  type : Option JobPostType := none
  category : Option JobPostCategory := none
  communityId : Option Nat := none
  designatedUserId : Option Nat := none
  equipmentType : Option String := none
  equipmentLengths : Option (List Int) := none
  ladderType : Option LadderType := none
  machineType : Option String := none
  luggageVolume : Option String := none
  workFloor : Option String := none
  overallHeight : Option String := none
  ladderWorkDuration : Option String := none
  ladderWorkHours : Option Int := none
  options : Option LadderOptionsPayload := none
  movingFee : Option Int := none
  onSiteFee : Option Int := none
  workDateType : Option String := none
  arrivalTime : Option String := none
  workSchedule : Option String := none
  customHours : Option Int := none
  workCost : Option Int := none
  isNightWork : Option Bool := none
  priceAdjustment : Option Int := none
  paymentMethod : Option PaymentMethod := none
  expectedPaymentDate : Option String := none
  withFee : Option Bool := none
  totalWorkFee : Option Int := none
  unitPriceFee : Option Int := none
  communityWorkFee : Option Int := none
  communitySupportFee : Option Int := none
  siteAddress : Option String := none
  contactNumber : Option String := none
  workContents : Option String := none
  deliveryInfo : Option String := none
deriving DecidableEq, Repr

/-- The base object of the strict `createJobPostSchema` before its `.refine`
chain: required keys must be present, optional numeric keys must satisfy their
range bounds (`equipmentLengths` non-empty, `ladderWorkHours` in 1..24, fees
non-negative, community fees in 0..100, `workCost` non-negative). -/
def baseSchemaOk (p : CreateJobPostPayload) : Bool :=
  p.type.isSome && p.category.isSome &&
  (match p.equipmentLengths with
   | none => true
   | some ls => decide (1 ≤ ls.length)) &&
  (match p.ladderWorkHours with
   | none => true
   | some h => decide (1 ≤ h) && decide (h ≤ 24)) &&
  (match p.movingFee with
   | none => true
   | some f => decide (0 ≤ f)) &&
  (match p.onSiteFee with
   | none => true
   | some f => decide (0 ≤ f)) &&
  p.workDateType.isSome &&
  p.arrivalTime.isSome &&
  (match p.workCost with
   | none => false
   | some c => decide (0 ≤ c)) &&
  p.paymentMethod.isSome &&
  p.expectedPaymentDate.isSome &&
  p.withFee.isSome &&
  (match p.communityWorkFee with
   | none => true
   | some f => decide (0 ≤ f) && decide (f ≤ 100)) &&
  (match p.communitySupportFee with
   | none => true
   | some f => decide (0 ≤ f) && decide (f ≤ 100)) &&
  p.siteAddress.isSome &&
  p.contactNumber.isSome &&
  p.deliveryInfo.isSome

/-- The guard `(type = GLOBAL or DESIGNATED or COMMUNITY) and category = LADDER`
shared by most of the schema's refine clauses. -/
def anyTypeLadder (p : CreateJobPostPayload) : Bool :=
  (p.type = some JobPostType.GLOBAL || p.type = some JobPostType.DESIGNATED ||
   p.type = some JobPostType.COMMUNITY) &&
  p.category = some JobPostCategory.LADDER

/-- `s !== undefined && s !== ''` on an optional string. -/
def presentNonEmpty : Option String → Bool
  | none => false
  | some s => !(s = "")

/-- Refine 1: `workContents` is required for all flows except
`(GLOBAL or DESIGNATED) -> LADDER -> MOVING_GOODS`. -/
def workContentsCheck (p : CreateJobPostPayload) : Bool :=
  if (p.type = some JobPostType.GLOBAL || p.type = some JobPostType.DESIGNATED) &&
      p.category = some JobPostCategory.LADDER &&
      p.ladderType = some LadderType.MOVING_GOODS then
    true
  else
    presentNonEmpty p.workContents

/-- Refine 2: `luggageVolume` is required for every ladder flow. -/
def luggageVolumeCheck (p : CreateJobPostPayload) : Bool :=
  if anyTypeLadder p then presentNonEmpty p.luggageVolume else true

/-- Refine 3: `workFloor` is required for every ladder flow. -/
def workFloorCheck (p : CreateJobPostPayload) : Bool :=
  if anyTypeLadder p then presentNonEmpty p.workFloor else true

/-- Refine 4: `machineType` is required for every ladder flow. -/
def machineTypeCheck (p : CreateJobPostPayload) : Bool :=
  if anyTypeLadder p then presentNonEmpty p.machineType else true

/-- Refine 5: `overallHeight` is required for every ladder flow. -/
def overallHeightCheck (p : CreateJobPostPayload) : Bool :=
  if anyTypeLadder p then presentNonEmpty p.overallHeight else true

/-- Refine 6: the `options` object is required for every ladder flow. -/
def optionsCheck (p : CreateJobPostPayload) : Bool :=
  if anyTypeLadder p then p.options.isSome else true

/-- Refine 7: `workDateType` is required for every ladder flow. -/
def workDateTypeCheck (p : CreateJobPostPayload) : Bool :=
  if anyTypeLadder p then presentNonEmpty p.workDateType else true

/-- Refine 8: `arrivalTime` is required for every ladder flow. -/
def arrivalTimeCheck (p : CreateJobPostPayload) : Bool :=
  if anyTypeLadder p then presentNonEmpty p.arrivalTime else true

/-- Refine 9: `workSchedule` is required only for ladder `ON_SITE` flows. -/
def workScheduleCheck (p : CreateJobPostPayload) : Bool :=
  if anyTypeLadder p && p.ladderType = some LadderType.ON_SITE then
    presentNonEmpty p.workSchedule
  else true

/-- Refine 10: `workCost` must be present and non-negative for ladder flows. -/
def workCostCheck (p : CreateJobPostPayload) : Bool :=
  if anyTypeLadder p then
    match p.workCost with
    | none => false
    | some c => decide (0 ≤ c)
  else true

/-- Refine 11: `paymentMethod` is required for every ladder flow. -/
def paymentMethodCheck (p : CreateJobPostPayload) : Bool :=
  if anyTypeLadder p then p.paymentMethod.isSome else true

/-- Refine 12: `expectedPaymentDate` is required for every ladder flow. -/
def expectedPaymentDateCheck (p : CreateJobPostPayload) : Bool :=
  if anyTypeLadder p then presentNonEmpty p.expectedPaymentDate else true

/-- Refine 13: `withFee` is required for every ladder flow. -/
def withFeeCheck (p : CreateJobPostPayload) : Bool :=
  if anyTypeLadder p then p.withFee.isSome else true

/-- Refine 14: `siteAddress` is required for every ladder flow. -/
def siteAddressCheck (p : CreateJobPostPayload) : Bool :=
  if anyTypeLadder p then presentNonEmpty p.siteAddress else true

/-- Refine 15: `contactNumber` is required for every ladder flow. -/
def contactNumberCheck (p : CreateJobPostPayload) : Bool :=
  if anyTypeLadder p then presentNonEmpty p.contactNumber else true

/-- Refine 16: `deliveryInfo` is required for every ladder flow. -/
def deliveryInfoCheck (p : CreateJobPostPayload) : Bool :=
  if anyTypeLadder p then presentNonEmpty p.deliveryInfo else true

/-- Acceptance by the strict `createJobPostSchema`: the base object parse
together with its sixteen `.refine` clauses (zod accepts exactly when every
clause passes). -/
def createJobPostSchemaOk (p : CreateJobPostPayload) : Bool :=
  baseSchemaOk p &&
  workContentsCheck p &&
  luggageVolumeCheck p &&
  workFloorCheck p &&
  machineTypeCheck p &&
  overallHeightCheck p &&
  optionsCheck p &&
  workDateTypeCheck p &&
  arrivalTimeCheck p &&
  workScheduleCheck p &&
  workCostCheck p &&
  paymentMethodCheck p &&
  expectedPaymentDateCheck p &&
  withFeeCheck p &&
  siteAddressCheck p &&
  contactNumberCheck p &&
  deliveryInfoCheck p

/-- A `user` table row (the columns the services read). -/
structure UserRow where
  id : Nat
  name : Option String := none
  nickname : Option String := none
  email : Option String := none
deriving DecidableEq, Repr

/-- A `community` table row. -/
structure CommunityRow where
  id : Nat
  title : String := ""
  description : Option String := none
  slug : String := ""
  status : CommunityStatus := CommunityStatus.ACTIVE
  isPrivate : Bool := false
  maxMembers : Option Int := none
  defaultWorkFee : Option Int := none
  defaultSupportFee : Option Int := none
  createdAt : Nat := 0
  updatedAt : Nat := 0
deriving DecidableEq, Repr

/-- A `community_member` table row (`isActive` is the soft-delete flag). -/
structure CommunityMemberRow where
  id : Nat
  userId : Nat
  communityId : Nat
  role : CommunityRole
  isActive : Bool
  invitedBy : Option Nat := none
  joinedAt : Nat := 0
deriving DecidableEq, Repr

/-- A `job_post` table row, with the columns assembled by
`JobPostService.createJobPost`. -/
structure JobPostRow where
  id : Nat
  type : JobPostType
  category : JobPostCategory
  authorId : Nat
  communityId : Option Nat := none
  designatedUserId : Option Nat := none
  equipmentType : Option String := none
  equipmentLength : Option Int := none
  ladderType : Option LadderType := none
  luggageVolume : Option String := none
  workFloor : Option Int := none
  overallHeight : Option Int := none
  ladderWorkDuration : Option String := none
  ladderWorkHours : Option Int := none
  loadingUnloadingService : Option LoadingUnloadingService := none
  travelDistance : Option TravelDistance := none
  dumpService : Bool := false
  movingFee : Option Int := none
  onSiteFee : Option Int := none
  workDateType : Option WorkDateType := none
  workDate : Option Nat := none
  arrivalTime : Option String := none
  workSchedule : Option String := none
  customHours : Option Int := none
  basePrice : Option Int := none
  finalPrice : Option Int := none
  isNightWork : Bool := false
  priceAdjustment : Option Int := none
  paymentMethod : Option PaymentMethod := none
  expectedPaymentDate : Option String := none
  withFee : Bool := true
  totalWorkFee : Option Int := none
  unitPriceFee : Option Int := none
  communityWorkFee : Option Int := none
  communitySupportFee : Option Int := none
  siteAddress : Option String := none
  contactNumber : Option String := none
  workContents : Option String := none
  deliveryInfo : Option String := none
  createdAt : Nat := 0
  updatedAt : Nat := 0
deriving DecidableEq, Repr

/-- The relational store: one list per table, id counters for the
auto-increment primary keys, and a logical clock standing in for timestamps. -/
structure DB where
  users : List UserRow := []
  communities : List CommunityRow := []
  members : List CommunityMemberRow := []
  posts : List JobPostRow := []
  nextPostId : Nat := 1
  nextCommunityId : Nat := 1
  nextMemberId : Nat := 1
  clock : Nat := 0
deriving DecidableEq, Repr

/-- The `author` / `designatedUser` select of the service includes:
`id`, `name`, `nickname`. -/
structure UserRef where
  id : Nat
  name : Option String := none
  nickname : Option String := none
deriving DecidableEq, Repr

/-- The `community` select of the service includes: `id`, `title`. -/
structure CommunityRef where
  id : Nat
  title : String := ""
deriving DecidableEq, Repr

/-- Resolve the eager-loaded `author` / `designatedUser` relation. -/
def resolveUserRef (db : DB) (uid : Option Nat) : Option UserRef :=
  match uid with
  | none => none
  | some u =>
      (db.users.find? (fun r => r.id = u)).map
        (fun r => { id := r.id, name := r.name, nickname := r.nickname })

/-- Resolve the eager-loaded `community` relation. -/
def resolveCommunityRef (db : DB) (cid : Option Nat) : Option CommunityRef :=
  match cid with
  | none => none
  | some c =>
      (db.communities.find? (fun r => r.id = c)).map
        (fun r => { id := r.id, title := r.title })

/-- `JobPostResponse` as shaped by `formatJobPostResponse`
(`undefined` becomes `none`). -/
structure JobPostResponse where
  id : Nat
  type : JobPostType
  category : JobPostCategory
  authorId : Nat
  communityId : Option Nat := none
  designatedUserId : Option Nat := none
  equipmentType : Option String := none
  equipmentLength : Option Int := none
  ladderType : Option LadderType := none
  luggageVolume : Option String := none
  workFloor : Option Int := none
  overallHeight : Option Int := none
  ladderWorkDuration : Option String := none
  ladderWorkHours : Option Int := none
  loadingUnloadingService : Option LoadingUnloadingService := none
  travelDistance : Option TravelDistance := none
  dumpService : Bool := false
  movingFee : Option Int := none
  onSiteFee : Option Int := none
  workDateType : Option WorkDateType := none
  workDate : Option Nat := none
  arrivalTime : Option String := none
  workSchedule : Option String := none
  customHours : Option Int := none
  basePrice : Option Int := none
  finalPrice : Option Int := none
  isNightWork : Bool := false
  priceAdjustment : Option Int := none
  paymentMethod : Option PaymentMethod := none
  expectedPaymentDate : Option String := none
  withFee : Bool := false
  totalWorkFee : Option Int := none
  unitPriceFee : Option Int := none
  communityWorkFee : Option Int := none
  communitySupportFee : Option Int := none
  siteAddress : Option String := none
  contactNumber : Option String := none
  workContents : Option String := none
  deliveryInfo : Option String := none
  createdAt : Nat := 0
  updatedAt : Nat := 0
  author : Option UserRef := none
  community : Option CommunityRef := none
  designatedUser : Option UserRef := none
deriving DecidableEq, Repr

/-- `JobPostService.formatJobPostResponse`: row-to-response shaping, with the
`x || undefined` truthiness collapses of the source (`0` and `""` become
`undefined`, `withFee` and the booleans get `|| false`). -/
def formatJobPostResponse (db : DB) (r : JobPostRow) : JobPostResponse :=
  { id := r.id
    type := r.type
    category := r.category
    authorId := r.authorId
    communityId := natOrNull r.communityId
    designatedUserId := natOrNull r.designatedUserId
    equipmentType := strOrNull r.equipmentType
    equipmentLength := intOrNull r.equipmentLength
    ladderType := r.ladderType
    luggageVolume := strOrNull r.luggageVolume
    workFloor := intOrNull r.workFloor
    overallHeight := intOrNull r.overallHeight
    ladderWorkDuration := strOrNull r.ladderWorkDuration
    ladderWorkHours := intOrNull r.ladderWorkHours
    loadingUnloadingService := r.loadingUnloadingService
    travelDistance := r.travelDistance
    dumpService := r.dumpService
    movingFee := intOrNull r.movingFee
    onSiteFee := intOrNull r.onSiteFee
    workDateType := r.workDateType
    workDate := r.workDate
    arrivalTime := strOrNull r.arrivalTime
    workSchedule := strOrNull r.workSchedule
    customHours := intOrNull r.customHours
    basePrice := intOrNull r.basePrice
    finalPrice := intOrNull r.finalPrice
    isNightWork := r.isNightWork
    priceAdjustment := intOrNull r.priceAdjustment
    paymentMethod := r.paymentMethod
    expectedPaymentDate := strOrNull r.expectedPaymentDate
    withFee := r.withFee
    totalWorkFee := intOrNull r.totalWorkFee
    unitPriceFee := intOrNull r.unitPriceFee
    communityWorkFee := intOrNull r.communityWorkFee
    communitySupportFee := intOrNull r.communitySupportFee
    siteAddress := strOrNull r.siteAddress
    contactNumber := strOrNull r.contactNumber
    workContents := strOrNull r.workContents
    deliveryInfo := strOrNull r.deliveryInfo
    createdAt := r.createdAt
    updatedAt := r.updatedAt
    author := resolveUserRef db (some r.authorId)
    community := resolveCommunityRef db r.communityId
    designatedUser := resolveUserRef db r.designatedUserId }

/-- The per-equipment-type rows of the `basePrices` table in
`JobPostService.calculatePrice`. -/
def basePricesFor (equipmentType : String) : Option (List (String × Int)) :=
  if equipmentType = "1 ton" then
    some [("half day morning", 50000), ("half day evening", 50000), ("1 day", 80000),
          ("2 days", 150000), ("3 days", 220000), ("monthly rent", 2000000)]
  else if equipmentType = "2.5 ton" then
    some [("half day morning", 70000), ("half day evening", 70000), ("1 day", 120000),
          ("2 days", 220000), ("3 days", 320000), ("monthly rent", 3000000)]
  else if equipmentType = "3.5 ton" then
    some [("half day morning", 90000), ("half day evening", 90000), ("1 day", 160000),
          ("2 days", 300000), ("3 days", 440000), ("monthly rent", 4000000)]
  else if equipmentType = "5 ton" then
    some [("half day morning", 120000), ("half day evening", 120000), ("1 day", 220000),
          ("2 days", 420000), ("3 days", 620000), ("monthly rent", 6000000)]
  else if equipmentType = "18 ton" then
    some [("half day morning", 180000), ("half day evening", 180000), ("1 day", 350000),
          ("2 days", 680000), ("3 days", 1000000), ("monthly rent", 10000000)]
  else if equipmentType = "19 ton" then
    some [("half day morning", 200000), ("half day evening", 200000), ("1 day", 380000),
          ("2 days", 750000), ("3 days", 1100000), ("monthly rent", 11000000)]
  else none

/-- `basePrices[equipmentType]` and then `[workSchedule]` lookup. -/
def basePriceTable (equipmentType workSchedule : String) : Option Int :=
  match basePricesFor equipmentType with
  | none => none
  | some entries => (entries.find? (fun e => e.1 = workSchedule)).map (fun e => e.2)

/-- `workSchedule.split(' ')[0]`. -/
def headToken (s : String) : String :=
  String.mk (s.toList.takeWhile (fun c => !(c = ' ')))

/-- JS `parseInt` restricted to the digit-prefixed strings that can reach it
here (the hour token of a validated schedule); a non-numeric token would be
`NaN` in JS and cannot arise on any call path of `createJobPost`. -/
def parseLeadingNat (cs : List Char) : Option Nat :=
  match cs.takeWhile Char.isDigit with
  | [] => none
  | ds => some (ds.foldl (fun acc c => acc * 10 + (c.toNat - 48)) 0)

/-- `JobPostService.calculatePrice`: table lookup, hourly fallback at one
eighth of the daily rate, 1.5x night multiplier, `Math.round` at the end. -/
def calculatePrice (equipmentType workSchedule : String) (isNightWork : Option Bool) : Int :=
  let base0 : Rat :=
    match basePriceTable equipmentType workSchedule with
    | some p => (p : Rat)
    | none =>
        if includesHour workSchedule then
          let hoursStr := headToken workSchedule
          if hoursStr = "" then 0
          else
            match parseLeadingNat hoursStr.toList, basePriceTable equipmentType "1 day" with
            | some hours, some dailyRate => ((dailyRate : Rat) / 8) * (hours : Rat)
            | _, _ => 0
        else 0
  let base1 : Rat := if boolOptTruthy isNightWork then base0 * (3 / 2 : Rat) else base0
  round base1

/-- `JobPostService.validateJobPostData`: a COMMUNITY post needs a truthy
`communityId`, a DESIGNATED post a truthy `designatedUserId`. -/
def validateJobPostData (d : CreateJobPostRequest) : Except String Unit :=
  if d.type = JobPostType.COMMUNITY && !natOptTruthy d.communityId then
    Except.error "Community ID is required for community job posts"
  else if d.type = JobPostType.DESIGNATED && !natOptTruthy d.designatedUserId then
    Except.error "Designated user ID is required for designated job posts"
  else Except.ok ()

/-- `findFirst` of an active membership row for a `(user, community)` pair. -/
def findActiveMembership (db : DB) (userId communityId : Nat) : Option CommunityMemberRow :=
  db.members.find? (fun m => m.userId = userId && m.communityId = communityId && m.isActive)

/-- `JobPostService.validateCommunityAccess`: the posting user must hold an
active membership of the target community. -/
def validateCommunityAccess (db : DB) (userId communityId : Nat) : Except String Unit :=
  match findActiveMembership db userId communityId with
  | some _ => Except.ok ()
  | none => Except.error "User is not a member of this community"

/-- Active community ids of a user
(`getUserCommunities` reduced to the ids the callers use). -/
def activeCommunityIds (db : DB) (userId : Nat) : List Nat :=
  (db.members.filter (fun m => m.userId = userId && m.isActive)).map
    (fun m => m.communityId)

/-- `JobPostService.validateDesignatedUserAccess`: the designated user must
hold an active membership in one of the posting user's active communities. -/
def validateDesignatedUserAccess (db : DB) (userId designatedUserId : Nat) :
    Except String Unit :=
  let communityIds := activeCommunityIds db userId
  match db.members.find? (fun m =>
      m.userId = designatedUserId && communityIds.contains m.communityId && m.isActive) with
  | some _ => Except.ok ()
  | none => Except.error "Designated user is not accessible"

/-- `JobPostService.hasAccessToJobPost`: GLOBAL is visible to everyone, a
DESIGNATED post only when `designatedUserId === userId`, and for COMMUNITY the
function returns `true` unconditionally (its comment defers the check to the
query level). -/
def hasAccessToJobPost (r : JobPostRow) (userId : Nat) : Bool :=
  if r.type = JobPostType.GLOBAL then true
  else if r.type = JobPostType.DESIGNATED && r.designatedUserId = some userId then true
  else if r.type = JobPostType.COMMUNITY then true
  else false

/-- The community-fee defaulting of `createJobPost` for one fee column:
a truthy caller value wins; otherwise the community row's configured default;
otherwise the hardcoded fallback (5 for the work fee, 2 for the support fee).
A stored `Decimal` is an object and therefore truthy in JS even at `0`,
so a configured `0` is kept. -/
def communityFeeValue (caller : Option Int) (stored : Option Int)
    (fallback : Int) : Option Int :=
  if intOptTruthy caller then caller
  else some (match stored with
             | some f => f
             | none => fallback)

/-- The `prisma.jobPost.create` data block of `createJobPost`: every omitted
optional field is normalised through the `|| null` / `|| false` truthiness of
the source, `basePrice` is the calculated price, `finalPrice` falls back to
it, and `withFee` defaults to `true` when `undefined`. -/
def assembleJobPostRow (userId : Nat) (d : CreateJobPostRequest)
    (calculatedPrice : Option Int) (communityWorkFee communitySupportFee : Option Int)
    (newId clock : Nat) : JobPostRow :=
  { id := newId
    type := d.type
    category := d.category
    authorId := userId
    communityId := natOrNull d.communityId
    designatedUserId := natOrNull d.designatedUserId
    equipmentType := strOrNull d.equipmentType
    equipmentLength := intOrNull d.equipmentLength
    ladderType := d.ladderType
    luggageVolume := strOrNull d.luggageVolume
    workFloor := intOrNull d.workFloor
    overallHeight := intOrNull d.overallHeight
    ladderWorkDuration := strOrNull d.ladderWorkDuration
    ladderWorkHours := intOrNull d.ladderWorkHours
    loadingUnloadingService := d.loadingUnloadingService
    travelDistance := d.travelDistance
    dumpService := boolOrFalse d.dumpService
    movingFee := intOrNull d.movingFee
    onSiteFee := intOrNull d.onSiteFee
    workDateType := d.workDateType
    workDate := d.workDate
    arrivalTime := strOrNull d.arrivalTime
    workSchedule := strOrNull d.workSchedule
    customHours := intOrNull d.customHours
    basePrice := calculatedPrice
    finalPrice := if intOptTruthy d.finalPrice then d.finalPrice else calculatedPrice
    isNightWork := boolOrFalse d.isNightWork
    priceAdjustment := intOrNull d.priceAdjustment
    paymentMethod := d.paymentMethod
    expectedPaymentDate := strOrNull d.expectedPaymentDate
    withFee := match d.withFee with
               | some b => b
               | none => true
    totalWorkFee := intOrNull d.totalWorkFee
    unitPriceFee := intOrNull d.unitPriceFee
    communityWorkFee := intOrNull communityWorkFee
    communitySupportFee := intOrNull communitySupportFee
    siteAddress := strOrNull d.siteAddress
    contactNumber := strOrNull d.contactNumber
    workContents := strOrNull d.workContents
    deliveryInfo := strOrNull d.deliveryInfo
    createdAt := clock
    updatedAt := clock }

/-- `JobPostService.createJobPost`: the validation steps, the access checks,
the SKY price calculation, the community-fee defaulting, and the insert. -/
def createJobPost (db : DB) (userId : Nat) (d : CreateJobPostRequest) :
    Except String (DB × JobPostResponse) := do
  validateJobPostData d
  if d.category = JobPostCategory.SKY then validateSkyJobPostData d else Except.ok ()
  if d.type = JobPostType.COMMUNITY && natOptTruthy d.communityId then
    validateCommunityAccess db userId (d.communityId.getD 0)
  else Except.ok ()
  if d.type = JobPostType.DESIGNATED && natOptTruthy d.designatedUserId then
    validateDesignatedUserAccess db userId (d.designatedUserId.getD 0)
  else Except.ok ()
  let calculatedPrice : Option Int :=
    if d.category = JobPostCategory.SKY && strOptTruthy d.equipmentType &&
        strOptTruthy d.workSchedule then
      some (calculatePrice (d.equipmentType.getD "") (d.workSchedule.getD "") d.isNightWork)
    else none
  let communityRow : Option CommunityRow :=
    if d.type = JobPostType.COMMUNITY && natOptTruthy d.communityId then
      db.communities.find? (fun c => c.id = d.communityId.getD 0)
    else none
  let communityWorkFee : Option Int :=
    match communityRow with
    | some c => communityFeeValue d.communityWorkFee c.defaultWorkFee 5
    | none => d.communityWorkFee
  let communitySupportFee : Option Int :=
    match communityRow with
    | some c => communityFeeValue d.communitySupportFee c.defaultSupportFee 2
    | none => d.communitySupportFee
  let row := assembleJobPostRow userId d calculatedPrice communityWorkFee
    communitySupportFee db.nextPostId db.clock
  let dbNext : DB :=
    { db with posts := db.posts ++ [row], nextPostId := db.nextPostId + 1 }
  Except.ok (dbNext, formatJobPostResponse dbNext row)

/-- `JobPostService.getJobPostById`: `findUnique` on the id, then the
`hasAccessToJobPost` check, applied only when the caller's `userId` is truthy. -/
def getJobPostById (db : DB) (id : Nat) (userId : Option Nat) : Option JobPostResponse :=
  match db.posts.find? (fun r => r.id = id) with
  | none => none
  | some r =>
      if natOptTruthy userId && !hasAccessToJobPost r (userId.getD 0) then none
      else some (formatJobPostResponse db r)

/-- `JobPostFilters` of the service layer. -/
structure JobPostFilters where
  type : Option JobPostType := none
  category : Option JobPostCategory := none
  communityId : Option Nat := none
  authorId : Option Nat := none
deriving DecidableEq, Repr

/-- The mutable `where` object `getJobPosts` builds before querying. -/
structure JobPostWhere where
  typeFilter : Option JobPostType := none
  categoryFilter : Option JobPostCategory := none
  authorFilter : Option Nat := none
  communityFilter : Option Nat := none
  visibilityOr : Option (List Nat × Nat) := none
deriving DecidableEq, Repr

/-- The `where`-building of `getJobPosts`, in source order: the optional
type/category/author filters (JS-truthy guards), then either the explicit
`communityId` filter, or the visibility `OR` clause for a truthy `userId`,
or `where.type = GLOBAL` when there is no user (overwriting any caller type
filter, as the assignment in the source does). -/
def buildJobPostWhere (db : DB) (filters : JobPostFilters) (userId : Option Nat) :
    JobPostWhere :=
  let w : JobPostWhere :=
    { typeFilter := filters.type
      categoryFilter := filters.category
      authorFilter := if natOptTruthy filters.authorId then filters.authorId else none }
  if natOptTruthy filters.communityId then
    { w with communityFilter := filters.communityId }
  else if natOptTruthy userId then
    { w with visibilityOr := some (activeCommunityIds db (userId.getD 0), userId.getD 0) }
  else
    { w with typeFilter := some JobPostType.GLOBAL }

/-- Row predicate for the built `where` object. -/
def matchesWhere (w : JobPostWhere) (r : JobPostRow) : Bool :=
  (match w.typeFilter with
   | none => true
   | some t => r.type = t) &&
  (match w.categoryFilter with
   | none => true
   | some c => r.category = c) &&
  (match w.authorFilter with
   | none => true
   | some a => r.authorId = a) &&
  (match w.communityFilter with
   | none => true
   | some c => r.communityId = some c) &&
  (match w.visibilityOr with
   | none => true
   | some (cids, u) =>
       r.type = JobPostType.GLOBAL ||
       (r.type = JobPostType.COMMUNITY &&
         (match r.communityId with
          | some c => cids.contains c
          | none => false)) ||
       (r.type = JobPostType.DESIGNATED && r.designatedUserId = some u))

/-- Insert into a list already sorted by `createdAt` descending. -/
def insertByCreatedAtDesc (r : JobPostRow) : List JobPostRow → List JobPostRow
  | [] => [r]
  | x :: xs =>
      if x.createdAt < r.createdAt then r :: x :: xs
      else x :: insertByCreatedAtDesc r xs

/-- The `orderBy createdAt desc` of the queries, as an insertion sort. -/
def sortByCreatedAtDesc : List JobPostRow → List JobPostRow
  | [] => []
  | r :: rs => insertByCreatedAtDesc r (sortByCreatedAtDesc rs)

/-- `JobPostService.getJobPosts`: filter with the built `where`, order by
creation time descending, shape each row. -/
def getJobPosts (db : DB) (filters : JobPostFilters) (userId : Option Nat) :
    List JobPostResponse :=
  let w := buildJobPostWhere db filters userId
  (sortByCreatedAtDesc (db.posts.filter (matchesWhere w))).map
    (formatJobPostResponse db)

theorem mem_insertByCreatedAtDesc {a r : JobPostRow} {l : List JobPostRow} :
    a ∈ insertByCreatedAtDesc r l ↔ a = r ∨ a ∈ l := by
  induction l with
  | nil => simp [insertByCreatedAtDesc]
  | cons x xs ih =>
      by_cases h : x.createdAt < r.createdAt
      · simp [insertByCreatedAtDesc, h]
      · simp [insertByCreatedAtDesc, h, ih]
        tauto

theorem mem_sortByCreatedAtDesc {a : JobPostRow} {l : List JobPostRow} :
    a ∈ sortByCreatedAtDesc l ↔ a ∈ l := by
  induction l with
  | nil => simp [sortByCreatedAtDesc]
  | cons x xs ih => simp [sortByCreatedAtDesc, mem_insertByCreatedAtDesc, ih]

/-- Characters kept by `generateSlug`'s first replace
(`[^a-z0-9\s-]` removed, after lowercasing). -/
def slugKeepChar (c : Char) : Bool :=
  ('a' ≤ c && c ≤ 'z') || c.isDigit || c.isWhitespace || c = '-'

/-- Collapse runs of dashes to a single dash (the dash-run replace of
`generateSlug`). -/
def collapseDashes : List Char → List Char
  | [] => []
  | [c] => [c]
  | c1 :: c2 :: rest =>
      if c1 = '-' && c2 = '-' then collapseDashes (c2 :: rest)
      else c1 :: collapseDashes (c2 :: rest)

/-- `CommunityService.generateSlug`: lowercase, strip characters outside
`[a-z0-9\s-]`, turn whitespace into dashes, collapse dash runs, trim.
Mapping each whitespace character to a dash and then collapsing dash runs
yields the same string as the source's `\s+ → '-'` followed by `-+ → '-'`. -/
def generateSlug (title : String) : String :=
  let lowered := title.toList.map Char.toLower
  let kept := lowered.filter slugKeepChar
  let dashed := kept.map (fun c => if c.isWhitespace then '-' else c)
  (String.mk (collapseDashes dashed)).trim

/-- `CreateCommunityRequest` of the community service. -/
structure CreateCommunityRequest where
  title : String
  description : Option String := none
  slug : Option String := none
  status : Option CommunityStatus := none
  isPrivate : Option Bool := none
  maxMembers : Option Int := none
  defaultWorkFee : Option Int := none
  defaultSupportFee : Option Int := none
deriving DecidableEq, Repr

/-- The included `user` object of a membership response
(select: id, name, nickname, email). -/
structure MemberUserRef where
  id : Nat
  name : Option String := none
  nickname : Option String := none
  email : Option String := none
deriving DecidableEq, Repr

/-- `CommunityMemberResponse` as shaped by `formatCommunityMemberResponse`. -/
structure CommunityMemberResponse where
  id : Nat
  userId : Nat
  communityId : Nat
  role : CommunityRole
  joinedAt : Nat
  invitedBy : Option Nat := none
  isActive : Bool
  user : Option MemberUserRef := none
  inviter : Option UserRef := none
deriving DecidableEq, Repr

/-- Resolve the eager-loaded `user` relation of a membership. -/
def resolveMemberUserRef (db : DB) (uid : Nat) : Option MemberUserRef :=
  (db.users.find? (fun r => r.id = uid)).map
    (fun r => { id := r.id, name := r.name, nickname := r.nickname, email := r.email })

/-- `CommunityService.formatCommunityMemberResponse`. -/
def formatCommunityMemberResponse (db : DB) (m : CommunityMemberRow) :
    CommunityMemberResponse :=
  { id := m.id
    userId := m.userId
    communityId := m.communityId
    role := m.role
    joinedAt := m.joinedAt
    invitedBy := m.invitedBy
    isActive := m.isActive
    user := resolveMemberUserRef db m.userId
    inviter := match m.invitedBy with
               | none => none
               | some i => resolveUserRef db (some i) }

/-- `CommunityService.createCommunity`: slug defaulting and uniqueness check,
community insert with truthiness defaults (`defaultWorkFee || 5`,
`defaultSupportFee || 2`), and the creator's OWNER membership insert. -/
def createCommunity (db : DB) (userId : Nat) (data : CreateCommunityRequest) :
    Except String (DB × CommunityRow) :=
  let slug := if strOptTruthy data.slug then data.slug.getD "" else generateSlug data.title
  if (db.communities.find? (fun c => c.slug = slug)).isSome then
    Except.error "Community slug already exists"
  else
    let community : CommunityRow :=
      { id := db.nextCommunityId
        title := data.title
        description := strOrNull data.description
        slug := slug
        status := match data.status with
                  | some s => s
                  | none => CommunityStatus.ACTIVE
        isPrivate := boolOrFalse data.isPrivate
        maxMembers := intOrNull data.maxMembers
        defaultWorkFee :=
          some (if intOptTruthy data.defaultWorkFee then data.defaultWorkFee.getD 0 else 5)
        defaultSupportFee :=
          some (if intOptTruthy data.defaultSupportFee then data.defaultSupportFee.getD 0 else 2)
        createdAt := db.clock
        updatedAt := db.clock }
    let member : CommunityMemberRow :=
      { id := db.nextMemberId
        userId := userId
        communityId := community.id
        role := CommunityRole.OWNER
        isActive := true
        joinedAt := db.clock }
    Except.ok
      ({ db with
          communities := db.communities ++ [community]
          members := db.members ++ [member]
          nextCommunityId := db.nextCommunityId + 1
          nextMemberId := db.nextMemberId + 1 },
       community)

/-- `findFirst` of the membership row for a `(community, user)` pair,
active or not. -/
def findMembershipAny (db : DB) (communityId userId : Nat) : Option CommunityMemberRow :=
  db.members.find? (fun m => m.communityId = communityId && m.userId = userId)

/-- Count of active members of a community. -/
def activeMemberCount (db : DB) (communityId : Nat) : Nat :=
  (db.members.filter (fun m => m.communityId = communityId && m.isActive)).length

/-- `CommunityService.joinCommunity`: community must exist; an active
membership is a hard error; an inactive row is reactivated in place; otherwise
the member-cap check runs and a fresh MEMBER row is inserted. -/
def joinCommunity (db : DB) (userId communityId : Nat) :
    Except String (DB × CommunityMemberResponse) :=
  match db.communities.find? (fun c => c.id = communityId) with
  | none => Except.error "Community not found"
  | some community =>
      match findMembershipAny db communityId userId with
      | some existingMembership =>
          if existingMembership.isActive then
            Except.error "User is already a member of this community"
          else
            let dbNext : DB :=
              { db with
                  members := db.members.map (fun m =>
                    if m.id = existingMembership.id then { m with isActive := true } else m) }
            Except.ok
              (dbNext, formatCommunityMemberResponse dbNext
                { existingMembership with isActive := true })
      | none =>
          if intOptTruthy community.maxMembers &&
              community.maxMembers.getD 0 ≤ (activeMemberCount db communityId : Int) then
            Except.error "Community has reached maximum member limit"
          else
            let row : CommunityMemberRow :=
              { id := db.nextMemberId
                userId := userId
                communityId := communityId
                role := CommunityRole.MEMBER
                isActive := true
                joinedAt := db.clock }
            let dbNext : DB :=
              { db with
                  members := db.members ++ [row]
                  nextMemberId := db.nextMemberId + 1 }
            Except.ok (dbNext, formatCommunityMemberResponse dbNext row)

/-- `CommunityService.leaveCommunity`: needs an active membership, refuses the
OWNER, otherwise soft-deletes the row (`isActive := false`). -/
def leaveCommunity (db : DB) (userId communityId : Nat) : Except String DB :=
  match findActiveMembership db userId communityId with
  | none => Except.error "User is not a member of this community"
  | some membership =>
      if membership.role = CommunityRole.OWNER then
        Except.error
          "Community owner cannot leave the community. Transfer ownership or delete the community instead."
      else
        Except.ok
          { db with
              members := db.members.map (fun m =>
                if m.id = membership.id then { m with isActive := false } else m) }

/-- `InviteUserRequest` of the community service (its zod schema allows any
`CommunityRole`, including OWNER, in the optional `role` field). -/
structure InviteUserRequest where
  communityId : Nat
  userId : Nat
  role : Option CommunityRole := none
deriving DecidableEq, Repr

/-- `CommunityService.inviteUser`: inviter must be an active
OWNER/ADMIN/MODERATOR; target user must exist; an active membership is an
error; an inactive row is reactivated with the requested role; otherwise the
member cap is checked and a fresh row inserted with `role || MEMBER`. -/
def inviteUser (db : DB) (userId : Nat) (data : InviteUserRequest) :
    Except String (DB × CommunityMemberResponse) :=
  match db.members.find? (fun m =>
      m.communityId = data.communityId && m.userId = userId &&
      (m.role = CommunityRole.OWNER || m.role = CommunityRole.ADMIN ||
       m.role = CommunityRole.MODERATOR) && m.isActive) with
  | none => Except.error "Insufficient permissions to invite users"
  | some _ =>
      match db.users.find? (fun u => u.id = data.userId) with
      | none => Except.error "User not found"
      | some _ =>
          match findMembershipAny db data.communityId data.userId with
          | some existingMembership =>
              if existingMembership.isActive then
                Except.error "User is already a member of this community"
              else
                let newRole := match data.role with
                               | some r => r
                               | none => CommunityRole.MEMBER
                let dbNext : DB :=
                  { db with
                      members := db.members.map (fun m =>
                        if m.id = existingMembership.id then
                          { m with isActive := true, role := newRole, invitedBy := some userId }
                        else m) }
                Except.ok
                  (dbNext, formatCommunityMemberResponse dbNext
                    { existingMembership with
                        isActive := true, role := newRole, invitedBy := some userId })
          | none =>
              let communityMax : Option Int :=
                match db.communities.find? (fun c => c.id = data.communityId) with
                | some c => c.maxMembers
                | none => none
              if intOptTruthy communityMax &&
                  communityMax.getD 0 ≤ (activeMemberCount db data.communityId : Int) then
                Except.error "Community has reached maximum member limit"
              else
                let row : CommunityMemberRow :=
                  { id := db.nextMemberId
                    userId := data.userId
                    communityId := data.communityId
                    role := match data.role with
                            | some r => r
                            | none => CommunityRole.MEMBER
                    isActive := true
                    invitedBy := some userId
                    joinedAt := db.clock }
                let dbNext : DB :=
                  { db with
                      members := db.members ++ [row]
                      nextMemberId := db.nextMemberId + 1 }
                Except.ok (dbNext, formatCommunityMemberResponse dbNext row)

/-- `CommunityService.updateMemberRole`: caller must be an active OWNER/ADMIN;
target must be an active member; an OWNER target is untouchable; promotion to
ADMIN is restricted to the OWNER; any other role value, including OWNER
itself, passes through to the update. -/
def updateMemberRole (db : DB) (communityId adminUserId targetUserId : Nat)
    (role : CommunityRole) : Except String (DB × CommunityMemberResponse) :=
  match db.members.find? (fun m =>
      m.communityId = communityId && m.userId = adminUserId &&
      (m.role = CommunityRole.OWNER || m.role = CommunityRole.ADMIN) && m.isActive) with
  | none => Except.error "Insufficient permissions to update member roles"
  | some adminMembership =>
      match db.members.find? (fun m =>
          m.communityId = communityId && m.userId = targetUserId && m.isActive) with
      | none => Except.error "User is not a member of this community"
      | some targetMembership =>
          if targetMembership.role = CommunityRole.OWNER then
            Except.error "Cannot change owner role"
          else if role = CommunityRole.ADMIN &&
              !(adminMembership.role = CommunityRole.OWNER) then
            Except.error "Only owners can promote users to admin"
          else
            let dbNext : DB :=
              { db with
                  members := db.members.map (fun m =>
                    if m.id = targetMembership.id then { m with role := role } else m) }
            Except.ok
              (dbNext, formatCommunityMemberResponse dbNext
                { targetMembership with role := role })

/-- `CommunityService.removeMember`: caller must be an active OWNER/ADMIN;
target must be an active member; the OWNER cannot be removed; an ADMIN target
can only be removed by the OWNER; otherwise the row is soft-deleted. -/
def removeMember (db : DB) (communityId adminUserId targetUserId : Nat) :
    Except String DB :=
  match db.members.find? (fun m =>
      m.communityId = communityId && m.userId = adminUserId &&
      (m.role = CommunityRole.OWNER || m.role = CommunityRole.ADMIN) && m.isActive) with
  | none => Except.error "Insufficient permissions to remove members"
  | some adminMembership =>
      match db.members.find? (fun m =>
          m.communityId = communityId && m.userId = targetUserId && m.isActive) with
      | none => Except.error "User is not a member of this community"
      | some targetMembership =>
          if targetMembership.role = CommunityRole.OWNER then
            Except.error "Cannot remove community owner"
          else if targetMembership.role = CommunityRole.ADMIN &&
              !(adminMembership.role = CommunityRole.OWNER) then
            Except.error "Only owners can remove admins"
          else
            Except.ok
              { db with
                  members := db.members.map (fun m =>
                    if m.id = targetMembership.id then { m with isActive := false } else m) }

/-- Number of active OWNER-role members of a community. -/
def activeOwnerCount (db : DB) (communityId : Nat) : Nat :=
  (db.members.filter (fun m =>
    m.communityId = communityId && m.role = CommunityRole.OWNER && m.isActive)).length

/-- The controller's catch-all for `joinCommunity`: any service error becomes
HTTP 400, success becomes 201 (there is no ConflictError type or 409 mapping
anywhere in the community controller). -/
def joinCommunityHttpStatus (db : DB) (userId communityId : Nat) : Nat :=
  match joinCommunity db userId communityId with
  | Except.ok _ => 201
  | Except.error _ => 400

/-- An empty database. -/
def dbEmpty : DB := {}

/-- A database holding a COMMUNITY job post (id 1) in community 7 authored by
user 5, whose only active member is user 5; user 2 is not a member. -/
def dbC1 : DB :=
  { users := [{ id := 5 }, { id := 2 }]
    communities := [{ id := 7, title := "community seven", slug := "community-seven" }]
    members := [{ id := 1, userId := 5, communityId := 7,
                  role := CommunityRole.OWNER, isActive := true }]
    posts := [{ id := 1, type := JobPostType.COMMUNITY,
                category := JobPostCategory.LADDER, authorId := 5,
                communityId := some 7 }]
    nextPostId := 2
    nextCommunityId := 8
    nextMemberId := 2 }

/-- Claim C1: a stored COMMUNITY post should be not-found (null) for an
authenticated non-member of its community.  The code evaluates otherwise:
`hasAccessToJobPost` answers `true` for every COMMUNITY post (deferring to a
query-level check that `getJobPostById`'s `findUnique` does not perform), so
the non-member user 2 receives the post. -/
theorem c1_community_post_leaks_to_nonmember :
    findActiveMembership dbC1 2 7 = none ∧
    (getJobPostById dbC1 1 (some 2)).isSome = true := by
  constructor
  · rfl
  · rfl

/-- A SKY service-layer create request with no `equipmentType` at all. -/
def skyReqNoType : CreateJobPostRequest :=
  { type := JobPostType.GLOBAL, category := JobPostCategory.SKY,
    equipmentType := none, equipmentLength := some 19,
    workDateType := some WorkDateType.URGENT, workContents := some "crane work" }

/-- A SKY raw payload with no `equipmentType` that satisfies every key the
strict schema does require. -/
def skyPayloadNoType : CreateJobPostPayload :=
  { type := some JobPostType.GLOBAL, category := some JobPostCategory.SKY,
    workDateType := some "URGENT", arrivalTime := some "09:00",
    workCost := some 100000, paymentMethod := some PaymentMethod.CASH,
    expectedPaymentDate := some "Same Day", withFee := some true,
    siteAddress := some "Seoul construction site", contactNumber := some "010-1234-5678",
    workContents := some "crane work", deliveryInfo := some "note" }

/-- Claim C2: SKY creation should fail exactly when `equipmentType` is absent
or a supplied length is off the whitelist.  The whitelist half behaves as
claimed (`1 ton`/19 fails, `1 ton`/18 passes), but a SKY request with no
`equipmentType` sails through both the strict schema and the service checks,
so the absence half of the iff is false in the code. -/
theorem c2_sky_equipment_type_not_required :
    skyReqNoType.equipmentType = none ∧
    createJobPostSchemaOk skyPayloadNoType = true ∧
    validateSkyJobPostData skyReqNoType = Except.ok () ∧
    (createJobPost dbEmpty 1 skyReqNoType).isOk = true ∧
    validateSkyJobPostData skyReq19 =
      Except.error "Invalid equipment length for equipment type" ∧
    validateSkyJobPostData skyReq18 = Except.ok () := by
  exact ⟨rfl, by decide, by decide, rfl, by decide, by decide⟩

/-- Two registered users, no communities yet. -/
def dbC5base : DB := { users := [{ id := 1 }, { id := 2 }] }

/-- User 1 creates a community (becoming its OWNER). -/
def c5Step1 : Except String (DB × CommunityRow) :=
  createCommunity dbC5base 1 { title := "crew", slug := some "crew" }

/-- The database after the community creation. -/
def c5Db1 : DB :=
  match c5Step1 with
  | Except.ok (db, _) => db
  | Except.error _ => dbC5base

/-- The OWNER then invites user 2 with `role := OWNER`, which the invite
schema admits. -/
def c5Step2 : Except String (DB × CommunityMemberResponse) :=
  inviteUser c5Db1 1 { communityId := 1, userId := 2, role := some CommunityRole.OWNER }

/-- The database after the invite. -/
def c5Db2 : DB :=
  match c5Step2 with
  | Except.ok (db, _) => db
  | Except.error _ => c5Db1

/-- Claim C5: at most one active OWNER per community in every reachable
state.  The code evaluates otherwise: `inviteUser` accepts `role = OWNER`
(only ADMIN promotion is gated in `updateMemberRole`, and `inviteUser` gates
nothing), so create-community followed by an OWNER-role invite reaches a
state with two active OWNER memberships of community 1. -/
theorem c5_second_owner_reachable :
    c5Step1.isOk = true ∧ c5Step2.isOk = true ∧ activeOwnerCount c5Db2 1 = 2 := by
  exact ⟨rfl, rfl, rfl⟩

/-- Users 1 and 2 share community 1, so user 1 may designate user 2. -/
def dbC6 : DB :=
  { users := [{ id := 1 }, { id := 2 }]
    communities := [{ id := 1, title := "shared", slug := "shared" }]
    members := [{ id := 1, userId := 1, communityId := 1,
                  role := CommunityRole.OWNER, isActive := true },
                { id := 2, userId := 2, communityId := 1,
                  role := CommunityRole.MEMBER, isActive := true }]
    nextCommunityId := 2
    nextMemberId := 3 }

/-- A valid DESIGNATED LADDER create request from user 1 for user 2. -/
def reqC6 : CreateJobPostRequest :=
  { type := JobPostType.DESIGNATED, category := JobPostCategory.LADDER,
    designatedUserId := some 2, ladderType := some LadderType.MOVING_GOODS,
    luggageVolume := some "1 ton", workFloor := some 3, overallHeight := some 15,
    workDateType := some WorkDateType.TODAY, arrivalTime := some "09:00",
    paymentMethod := some PaymentMethod.CASH, expectedPaymentDate := some "Same Day",
    withFee := some false, siteAddress := some "Busan",
    contactNumber := some "010-0000-0000", workContents := some "move goods",
    deliveryInfo := some "note" }

/-- User 1 creates the designated post. -/
def c6Create : Except String (DB × JobPostResponse) := createJobPost dbC6 1 reqC6

/-- The database after the creation. -/
def c6Db : DB :=
  match c6Create with
  | Except.ok (db, _) => db
  | Except.error _ => dbC6

/-- The id the creation response reports. -/
def c6CreatedId : Nat :=
  match c6Create with
  | Except.ok (_, resp) => resp.id
  | Except.error _ => 0

/-- Claim C6: create-then-read-back as the author should succeed for every
post type, DESIGNATED included.  The code evaluates otherwise:
`hasAccessToJobPost` grants a DESIGNATED post only to its designated user,
never to its author, so the author's immediate `getJobPostById` of the post
just created returns null. -/
theorem c6_author_cannot_read_back_designated :
    c6Create.isOk = true ∧ c6CreatedId = 1 ∧
    getJobPostById c6Db 1 (some 1) = none := by
  exact ⟨rfl, rfl, rfl⟩

/-- A GLOBAL LADDER service-layer request with `withFee` omitted. -/
def reqC7 : CreateJobPostRequest :=
  { type := JobPostType.GLOBAL, category := JobPostCategory.LADDER,
    withFee := none }

/-- The `withFee` value of the row the service would store for `reqC7`. -/
def c7StoredWithFee : Bool :=
  match createJobPost dbEmpty 1 reqC7 with
  | Except.ok (_, resp) => resp.withFee
  | Except.error _ => false

/-- Claim C7 counterexample: the claim's second half says no layer substitutes
a default for `withFee`, yet `createJobPost` stores `withFee = true` for a
request in which `withFee` is `undefined` (its row assembly reads
`data.withFee !== undefined ? data.withFee : true`). -/
theorem c7_service_defaults_with_fee :
    reqC7.withFee = none ∧ c7StoredWithFee = true := by
  exact ⟨rfl, rfl⟩

/-- The three refine clauses of the strict schema the proofs below take
apart: base parse, `workContents`, `workSchedule`. -/
theorem schemaOk_parts {p : CreateJobPostPayload} (h : createJobPostSchemaOk p = true) :
    baseSchemaOk p = true ∧ workContentsCheck p = true ∧ workScheduleCheck p = true := by
  simp only [createJobPostSchemaOk, Bool.and_eq_true] at h
  tauto

/-- Presence facts extracted from a successful base parse: `type` and
`withFee` are present. -/
theorem baseOk_parts {p : CreateJobPostPayload} (h : baseSchemaOk p = true) :
    p.type.isSome = true ∧ p.withFee.isSome = true := by
  simp only [baseSchemaOk, Bool.and_eq_true] at h
  tauto

/-- A fully valid GLOBAL LADDER MOVING_GOODS payload with `workContents`
absent. -/
def ladderBase : CreateJobPostPayload :=
  { type := some JobPostType.GLOBAL, category := some JobPostCategory.LADDER,
    ladderType := some LadderType.MOVING_GOODS,
    machineType := some "ladder truck", luggageVolume := some "1 ton",
    workFloor := some "3", overallHeight := some "15",
    options := some {}, workDateType := some "TODAY", arrivalTime := some "09:00",
    workCost := some 150000, paymentMethod := some PaymentMethod.SIGNATURE,
    expectedPaymentDate := some "Same Day", withFee := some false,
    siteAddress := some "Busan site", contactNumber := some "010-0000-0000",
    workContents := none, deliveryInfo := some "bring gear" }

/-- The DESIGNATED variant of `ladderBase` with an empty `workContents`. -/
def ladderDesignatedEmptyWC : CreateJobPostPayload :=
  { ladderBase with type := some JobPostType.DESIGNATED, workContents := some "" }

/-- Claim C3: the strict schema accepts a payload without `workContents`
(absent or empty) exactly in the `(GLOBAL|DESIGNATED) LADDER MOVING_GOODS`
carve-out: every accepted payload missing `workContents` lies in the
carve-out, and both carve-out types admit concrete accepted payloads with
`workContents` absent or empty. -/
theorem c3_work_contents_required_except_moving_goods :
    (∀ p : CreateJobPostPayload,
        p.workContents = none ∨ p.workContents = some "" →
        createJobPostSchemaOk p = true →
        (p.type = some JobPostType.GLOBAL ∨ p.type = some JobPostType.DESIGNATED) ∧
        p.category = some JobPostCategory.LADDER ∧
        p.ladderType = some LadderType.MOVING_GOODS) ∧
    createJobPostSchemaOk ladderBase = true ∧
    createJobPostSchemaOk ladderDesignatedEmptyWC = true := by
  refine ⟨?_, by decide, by decide⟩
  intro p hwc hacc
  have hwcc := (schemaOk_parts hacc).2.1
  rw [workContentsCheck] at hwcc
  split at hwcc
  case isTrue h =>
    simp only [Bool.and_eq_true, Bool.or_eq_true, decide_eq_true_eq] at h
    exact ⟨h.1.1, h.1.2, h.2⟩
  case isFalse h =>
    exfalso
    rcases hwc with hw | hw <;> rw [hw] at hwcc <;> simp [presentNonEmpty] at hwcc

/-- Witness for the universal half of the carve-out theorem, instantiated at
the concrete accepted payload `ladderBase`. -/
theorem c3_work_contents_required_except_moving_goods_witness :
    (ladderBase.type = some JobPostType.GLOBAL ∨
     ladderBase.type = some JobPostType.DESIGNATED) ∧
    ladderBase.category = some JobPostCategory.LADDER ∧
    ladderBase.ladderType = some LadderType.MOVING_GOODS :=
  c3_work_contents_required_except_moving_goods.1 ladderBase (Or.inl rfl) (by decide)

/-- An ON_SITE payload that omits `ladderWorkDuration` and `ladderWorkHours`
but carries a `workSchedule` and `workContents`. -/
def ladderOnSiteNoDuration : CreateJobPostPayload :=
  { ladderBase with
      ladderType := some LadderType.ON_SITE
      workContents := some "install sign"
      workSchedule := some "half day morning" }

/-- Claim C4 counterexample: the schema accepts an ON_SITE creation payload
whose `ladderWorkDuration` (and `ladderWorkHours`) are absent — no refine
clause ever requires them, so "creation fails when ladderWorkDuration is
absent" is false. -/
theorem c4_on_site_without_duration_accepted :
    ladderOnSiteNoDuration.ladderType = some LadderType.ON_SITE ∧
    ladderOnSiteNoDuration.ladderWorkDuration = none ∧
    ladderOnSiteNoDuration.ladderWorkHours = none ∧
    createJobPostSchemaOk ladderOnSiteNoDuration = true := by
  exact ⟨rfl, rfl, rfl, by decide⟩

/-- Claim C4 (amended): for LADDER ON_SITE requests the schema rejects a
missing (or empty) `workSchedule`; `ladderWorkDuration` is never required, so
an ON_SITE payload without it is accepted, and a MOVING_GOODS payload without
both fields is accepted. -/
theorem c4_on_site_requires_work_schedule_only :
    (∀ p : CreateJobPostPayload, p.category = some JobPostCategory.LADDER →
        p.ladderType = some LadderType.ON_SITE →
        p.workSchedule = none ∨ p.workSchedule = some "" →
        createJobPostSchemaOk p = false) ∧
    createJobPostSchemaOk ladderOnSiteNoDuration = true ∧
    createJobPostSchemaOk ladderBase = true := by
  refine ⟨?_, by decide, by decide⟩
  intro p hcat hlt hws
  cases hacc : createJobPostSchemaOk p
  · rfl
  · exfalso
    have hparts := schemaOk_parts hacc
    have hty := (baseOk_parts hparts.1).1
    have hwsc := hparts.2.2
    rw [workScheduleCheck] at hwsc
    split at hwsc
    case isTrue h =>
      rcases hws with hw | hw <;> rw [hw] at hwsc <;> simp [presentNonEmpty] at hwsc
    case isFalse h =>
      apply h
      obtain ⟨t, ht⟩ := Option.isSome_iff_exists.mp hty
      cases t <;> simp [anyTypeLadder, ht, hcat, hlt]

/-- An ON_SITE payload with no `workSchedule` at all. -/
def ladderOnSiteNoSchedule : CreateJobPostPayload :=
  { ladderBase with
      ladderType := some LadderType.ON_SITE
      workContents := some "install sign" }

/-- Witness for the universal half of the amended ON_SITE claim, at the
concrete payload `ladderOnSiteNoSchedule`. -/
theorem c4_on_site_requires_work_schedule_only_witness :
    createJobPostSchemaOk ladderOnSiteNoSchedule = false :=
  c4_on_site_requires_work_schedule_only.1 ladderOnSiteNoSchedule rfl rfl (Or.inl rfl)

/-- A raw payload with `withFee` missing (every other key also absent). -/
def payloadNoWithFee : CreateJobPostPayload := {}

/-- Claim C7 (amended): the strict schema requires `withFee` for every
payload (so in particular a COMMUNITY creation without it fails), and the
validator layer substitutes no default; the service layer, however, would
store `withFee = true` for an `undefined` value. -/
theorem c7_with_fee_required_by_schema :
    (∀ p : CreateJobPostPayload, p.withFee = none →
        createJobPostSchemaOk p = false) ∧
    c7StoredWithFee = true := by
  constructor
  · intro p h
    cases hacc : createJobPostSchemaOk p
    · rfl
    · exfalso
      have hwf := (baseOk_parts (schemaOk_parts hacc).1).2
      rw [h] at hwf
      simp at hwf
  · rfl

/-- Witness for the universal half of the amended `withFee` claim, at the
concrete payload `payloadNoWithFee`. -/
theorem c7_with_fee_required_by_schema_witness :
    createJobPostSchemaOk payloadNoWithFee = false :=
  c7_with_fee_required_by_schema.1 payloadNoWithFee rfl

/-- Community 1 with an OWNER (user 1) and an active MEMBER (user 2). -/
def c8Community : CommunityRow := { id := 1, title := "guild", slug := "guild" }

/-- User 1's OWNER membership row of community 1. -/
def c8OwnerRow : CommunityMemberRow :=
  { id := 1, userId := 1, communityId := 1, role := CommunityRole.OWNER, isActive := true }

/-- User 2's active MEMBER membership row of community 1. -/
def c8ActiveRow : CommunityMemberRow :=
  { id := 2, userId := 2, communityId := 1, role := CommunityRole.MEMBER, isActive := true }

/-- User 2's membership row after leaving (soft-deleted). -/
def c8InactiveRow : CommunityMemberRow := { c8ActiveRow with isActive := false }

/-- Database in which user 2 is an active member of community 1. -/
def dbC8 : DB :=
  { users := [{ id := 1 }, { id := 2 }]
    communities := [c8Community]
    members := [c8OwnerRow, c8ActiveRow]
    nextCommunityId := 2
    nextMemberId := 3 }

/-- Database in which user 2's membership row of community 1 is inactive. -/
def dbC8b : DB := { dbC8 with members := [c8OwnerRow, c8InactiveRow] }

/-- Claim C8 counterexample: a second join by an already-active member fails,
but with a plain `Error` that the community controller's catch-all maps to
HTTP 400 — there is no `ConflictError` type and no 409 anywhere on this path,
so "fails with ConflictError" (mapped to 409 in the spec's taxonomy) is false. -/
theorem c8_conflict_maps_to_400 :
    joinCommunityHttpStatus dbC8 2 1 = 400 ∧ joinCommunityHttpStatus dbC8 2 1 ≠ 409 := by
  exact ⟨rfl, by decide⟩

/-- Claim C8 (amended): joining while an active membership exists fails (with
a plain error the boundary maps to 400, not a ConflictError/409); joining
while an inactive row exists reactivates that same row — the response carries
the existing row's id and the member table keeps exactly the same row ids, so
no second row is ever created for the pair. -/
theorem c8_join_conflict_and_reactivation :
    (∀ (db : DB) (uid cid : Nat) (c : CommunityRow) (m : CommunityMemberRow),
        db.communities.find? (fun x => x.id = cid) = some c →
        findMembershipAny db cid uid = some m →
        m.isActive = true →
        joinCommunity db uid cid =
          Except.error "User is already a member of this community") ∧
    (∀ (db : DB) (uid cid : Nat) (c : CommunityRow) (m : CommunityMemberRow),
        db.communities.find? (fun x => x.id = cid) = some c →
        findMembershipAny db cid uid = some m →
        m.isActive = false →
        ∃ dbN resp, joinCommunity db uid cid = Except.ok (dbN, resp) ∧
          resp.id = m.id ∧
          dbN.members.map (fun x => x.id) = db.members.map (fun x => x.id)) := by
  constructor
  · intro db uid cid c m hc hm hact
    simp only [joinCommunity, hc, hm, hact]
    rfl
  · intro db uid cid c m hc hm hact
    simp only [joinCommunity, hc, hm, hact]
    refine ⟨_, _, rfl, rfl, ?_⟩
    rw [List.map_map]
    apply List.map_congr_left
    intro a _
    by_cases h : a.id = m.id <;> simp [h]

/-- Witness for the amended join claim: both halves instantiated — the active
member 2 of `dbC8` gets the conflict error, and the inactive row of `dbC8b`
is reactivated keeping its id and without any new row. -/
theorem c8_join_conflict_and_reactivation_witness :
    joinCommunity dbC8 2 1 =
      Except.error "User is already a member of this community" ∧
    (∃ dbN resp, joinCommunity dbC8b 2 1 = Except.ok (dbN, resp) ∧
      resp.id = c8InactiveRow.id ∧
      dbN.members.map (fun x => x.id) = dbC8b.members.map (fun x => x.id)) :=
  ⟨c8_join_conflict_and_reactivation.1 dbC8 2 1 c8Community c8ActiveRow rfl rfl rfl,
   c8_join_conflict_and_reactivation.2 dbC8b 2 1 c8Community c8InactiveRow rfl rfl rfl⟩

/-- Claim C9: `leaveCommunity` always fails for the OWNER — whenever the
caller's active membership row carries the OWNER role the service throws
before its update, so the row (already active by assumption) stays active. -/
theorem c9_owner_cannot_leave :
    ∀ (db : DB) (uid cid : Nat) (m : CommunityMemberRow),
      findActiveMembership db uid cid = some m →
      m.role = CommunityRole.OWNER →
      leaveCommunity db uid cid =
        Except.error "Community owner cannot leave the community. Transfer ownership or delete the community instead." ∧
      m.isActive = true := by
  intro db uid cid m hm hrole
  constructor
  · simp only [leaveCommunity, hm, hrole]
    rfl
  · have hp := List.find?_some hm
    simp only [Bool.and_eq_true] at hp
    exact hp.2

/-- Witness for the OWNER-cannot-leave theorem at the concrete owner of
community 1 in `dbC8`. -/
theorem c9_owner_cannot_leave_witness :
    leaveCommunity dbC8 1 1 =
      Except.error "Community owner cannot leave the community. Transfer ownership or delete the community instead." ∧
    c8OwnerRow.isActive = true :=
  c9_owner_cannot_leave dbC8 1 1 c8OwnerRow rfl rfl

/-- Claim C10: with no authenticated user and no `communityId` filter the
`where` object built by `getJobPosts` pins `type` to GLOBAL (overwriting any
caller-supplied type filter), so every returned post has type GLOBAL. -/
theorem c10_no_user_only_global :
    ∀ (db : DB) (filters : JobPostFilters) (r : JobPostResponse),
      filters.communityId = none →
      r ∈ getJobPosts db filters none →
      r.type = JobPostType.GLOBAL := by
  intro db filters r hcid hr
  unfold getJobPosts at hr
  rw [List.mem_map] at hr
  obtain ⟨row, hrow, hfmt⟩ := hr
  rw [mem_sortByCreatedAtDesc, List.mem_filter] at hrow
  have hmw := hrow.2
  have hwty : (buildJobPostWhere db filters none).typeFilter = some JobPostType.GLOBAL := by
    simp [buildJobPostWhere, hcid, natOptTruthy]
  simp only [matchesWhere, Bool.and_eq_true] at hmw
  have h1 := hmw.1.1.1.1
  rw [hwty] at h1
  simp only [decide_eq_true_eq] at h1
  rw [← hfmt]
  simpa [formatJobPostResponse] using h1

/-- A GLOBAL post row for the list-read witness. -/
def c10GlobalRow : JobPostRow :=
  { id := 1, type := JobPostType.GLOBAL, category := JobPostCategory.SKY, authorId := 1 }

/-- A database holding one GLOBAL and one COMMUNITY post. -/
def dbC10 : DB :=
  { posts := [c10GlobalRow,
              { id := 2, type := JobPostType.COMMUNITY,
                category := JobPostCategory.SKY, authorId := 1,
                communityId := some 1 }]
    nextPostId := 3 }

/-- Witness for the unauthenticated-list theorem at the concrete database
`dbC10` with empty filters. -/
theorem c10_no_user_only_global_witness :
    (formatJobPostResponse dbC10 c10GlobalRow).type = JobPostType.GLOBAL :=
  c10_no_user_only_global dbC10 {} (formatJobPostResponse dbC10 c10GlobalRow) rfl
    (by decide)
